import Mathlib

/-!
Shallow embedding of the project/bundle persistence core of the Copista
capture tool (source/project_manager.py and the bundle-insertion fragment of
source/gui/digitization_dialog.py), together with theorems settling the
specification claims about it.

Modelling conventions:
* Python JSON values are modelled by the inductive type JVal; a file on disk
  either holds a well-formed JSON document (FileContent.json v) or text that
  json.load rejects (FileContent.malformed).  Python json.dump followed by
  json.load is the identity on JSON-representable values, so serialization is
  abstracted to storing the value itself.
* The filesystem is a finite map from paths to file contents plus a set of
  directories (FS).  Paths are opaque strings; os.path.join(a, b) is a ++ "/" ++ b.
* Environmental failures (permission errors, disk full, ...) are injected by
  an oracle Env assigning to each path an optional exception text for reads,
  writes and directory creation; Env.ok is the failure-free environment.
* Python tuple returns (flag, message) are modelled directly; the message is a
  (category, detail) pair of strings, exactly the strings built in the source
  (including the source lines that omit the f prefix and therefore produce
  literal brace placeholders).
-/

namespace Copista

/-- A JSON value as handled by Python json.load and json.dump.  Objects keep
their key order, as Python dicts do. -/
inductive JVal where
  | null
  | bool (b : Bool)
  | num (n : Int)
  | str (s : String)
  | arr (elems : List JVal)
  | obj (fields : List (String × JVal))

/-- Python truthiness of a JSON value: None, False, 0, empty string, empty
list and empty dict are falsy. -/
def JVal.falsy : JVal → Bool
  | .null => true
  | .bool b => !b
  | .num n => n == 0
  | .str s => s == ""
  | .arr xs => xs.isEmpty
  | .obj fs => fs.isEmpty

/-- Python dict.get(key, default), defined on JSON objects.  Callers of this
model only apply it to objects (the non-object case of the source raises and
is handled separately in load_from_json). -/
def JVal.getD (v : JVal) (key : String) (dflt : JVal) : JVal :=
  match v with
  | .obj fields =>
    match fields.lookup key with
    | some x => x
    | none => dflt
  | _ => dflt

/-- Python dict assignment d[key] = x on a JSON object: replace the value of
an existing key in place, otherwise append the new key at the end (dict
insertion order).  Non-objects are returned unchanged; the source only
assigns into the freshly initialised metadata dict. -/
def JVal.setKey (v : JVal) (key : String) (x : JVal) : JVal :=
  match v with
  | .obj fields =>
    if (fields.lookup key).isSome then
      .obj (fields.map (fun kv => if kv.1 == key then (key, x) else kv))
    else
      .obj (fields ++ [(key, x)])
  | other => other

/-- Content of a file on disk: a parseable JSON document or malformed text. -/
inductive FileContent where
  | json (value : JVal)
  | malformed

/-- The filesystem state: a finite map from paths to file contents plus the
set of existing directories. -/
structure FS where
  files : List (String × FileContent)
  dirs : List String

/-- os.path.exists: true for an existing directory or an existing file. -/
def FS.path_exists (fs : FS) (p : String) : Bool :=
  fs.dirs.contains p || (fs.files.lookup p).isSome

/-- Whether the path names an existing regular file. -/
def FS.isFile (fs : FS) (p : String) : Bool :=
  (fs.files.lookup p).isSome

/-- Write (create or overwrite) a file. -/
def FS.setFile (fs : FS) (p : String) (c : FileContent) : FS :=
  { fs with files := (p, c) :: fs.files.filter (fun kv => kv.1 != p) }

/-- Record a directory as existing (no effect if already present). -/
def FS.addDir (fs : FS) (p : String) : FS :=
  if fs.dirs.contains p then fs else { fs with dirs := p :: fs.dirs }

/-- Environmental failure oracle: for each path, the exception text raised by
opening the path for reading, opening it for writing, or creating it as a
directory, when that operation fails for reasons outside the model
(permissions, disk full, ...). -/
structure Env where
  read_fails : String → Option String
  write_fails : String → Option String
  makedirs_fails : String → Option String

/-- The environment in which no filesystem operation fails environmentally. -/
def Env.ok : Env :=
  { read_fails := fun _ => none
    write_fails := fun _ => none
    makedirs_fails := fun _ => none }

/-- os.makedirs(p, exist_ok=True): fails with the oracle's exception, or with
FileExistsError when the path exists as a regular file; otherwise records the
directory. -/
def makedirs (env : Env) (fs : FS) (p : String) : Except String FS :=
  match env.makedirs_fails p with
  | some e => .error e
  | none =>
    if fs.isFile p then .error ("FileExistsError: " ++ p)
    else .ok (fs.addDir p)

/-- A structured (category, human-readable detail) message pair, exactly the
two-element tuples built by the source. -/
abbrev Msg := String × String

/-- os.path.join of two path components. -/
def pathJoin (a b : String) : String := a ++ "/" ++ b

/-- Characters of the final path component: scan the characters, restarting
the accumulator after each slash. -/
def basenameAux : List Char → List Char → List Char
  | [], acc => acc.reverse
  | c :: cs, acc =>
    if c = '/' then basenameAux cs [] else basenameAux cs (c :: acc)

/-- os.path.basename: the final path component. -/
def basename (p : String) : String := String.mk (basenameAux p.data [])

/-- In-memory state of one Project instance (project_manager.py lines 18-34).
The attributes bundles and project_metadata are dynamically typed in Python
(they receive whatever JSON value the file held), so both are JVal here.
The files and subfolders dicts of the constructor hold paths derived purely
from the directory and are modelled as the functions below. -/
structure Project where
  directory : String
  project_metadata : JVal
  bundles : JVal

/-- Project.__init__: title and description start as None, bundles as the
empty list. -/
def Project.init (directory : String) : Project :=
  { directory := directory
    project_metadata := .obj [("title", .null), ("description", .null)]
    bundles := .arr [] }

/-- self.files["bundles"] from the constructor. -/
def Project.bundles_file (p : Project) : String :=
  pathJoin p.directory "bundles.json"

/-- self.files["project_metadata"] from the constructor. -/
def Project.project_metadata_file (p : Project) : String :=
  pathJoin p.directory "project_metadata.json"

/-- self.subfolders["cache_subfolder"] from the constructor. -/
def Project.cache_subfolder (p : Project) : String :=
  pathJoin p.directory ".cache"

/-- self.subfolders["capture_subfolder"] from the constructor. -/
def Project.capture_subfolder (p : Project) : String :=
  pathJoin p.directory ".capture"

/-- The message of the FileNotFoundError branch of load_from_json (line 74). -/
def msg_not_found (file : String) : Msg :=
  ("Error", "No existe " ++ basename file ++ " en el proyecto")

/-- The message of the JSONDecodeError branch of load_from_json (line 78).
The source omits the f prefix on this string, so the braces are literal. -/
def msg_parse_error : Msg :=
  ("Error", "Error al leer {filename}")

/-- The warning message of load_from_json (line 84).  The source omits the f
prefix on this string too, so the braces are literal. -/
def msg_empty_item_warning : Msg :=
  ("Advertencia", "No se encontro {item_name} en el archivo JSON")

/-- Result of Project.load_from_json: the Python triple (False, message, None)
on failure, (True, optional warning, item) on success. -/
inductive LoadJsonResult where
  | failure (message : Msg)
  | success (message : Option Msg) (item : JVal)

/-- Translation of Project.load_from_json (project_manager.py lines 64-85).
Opening an absent file raises FileNotFoundError; opening an unreadable file
raises an OSError caught by the generic handler; json.load on malformed text
raises JSONDecodeError; data.get on a non-dict raises AttributeError, caught
by the generic handler. -/
def Project.load_from_json (env : Env) (fs : FS) (file : String)
    (item_name : String) : LoadJsonResult :=
  match fs.files.lookup file with
  | none => .failure (msg_not_found file)
  | some content =>
    match env.read_fails file with
    | some e => .failure ("Error", "Error inesperado: " ++ e)
    | none =>
      match content with
      | .malformed => .failure msg_parse_error
      | .json data =>
        match data with
        | .obj _ =>
          let item := data.getD item_name (.arr [])
          let message : Option Msg :=
            if item.falsy then some msg_empty_item_warning else none
          .success message item
        | _ => .failure ("Error", "Error inesperado: AttributeError")

/-- Translation of Project.load_bundles (lines 36-41): on failure return the
message and leave self.bundles untouched; on success assign self.bundles and
return (True, None) - note that the warning produced by load_from_json is
discarded here. -/
def Project.load_bundles (env : Env) (fs : FS) (p : Project) :
    Bool × Option Msg × Project :=
  match Project.load_from_json env fs p.bundles_file "bundles" with
  | .failure message => (false, some message, p)
  | .success _ item => (true, none, { p with bundles := item })

/-- Translation of Project.load_project_metadata (lines 50-55), identical in
shape to load_bundles but keyed on project_metadata. -/
def Project.load_project_metadata (env : Env) (fs : FS) (p : Project) :
    Bool × Option Msg × Project :=
  match Project.load_from_json env fs p.project_metadata_file "project_metadata" with
  | .failure message => (false, some message, p)
  | .success _ item => (true, none, { p with project_metadata := item })

/-- Translation of Project.save_to_json (lines 87-97): overwrite the file with
the serialized data, or return the write error. -/
def Project.save_to_json (env : Env) (fs : FS) (file : String) (data : JVal) :
    (Bool × Option Msg) × FS :=
  match env.write_fails file with
  | some e => ((false, some ("Error", "Error actualizando " ++ file ++ ": " ++ e)), fs)
  | none => ((true, none), fs.setFile file (.json data))

/-- Translation of Project.save_bundles (lines 43-48): wrap the in-memory
bundles under the key bundles and save. -/
def Project.save_bundles (env : Env) (fs : FS) (p : Project) :
    (Bool × Option Msg) × FS :=
  let bundles := JVal.obj [("bundles", p.bundles)]
  match Project.save_to_json env fs p.bundles_file bundles with
  | ((false, message), fs1) => ((false, message), fs1)
  | ((true, message), fs1) => ((true, message), fs1)

/-- Translation of Project.save_project_metadata (lines 57-62). -/
def Project.save_project_metadata (env : Env) (fs : FS) (p : Project) :
    (Bool × Option Msg) × FS :=
  let project_metadata := JVal.obj [("project_metadata", p.project_metadata)]
  match Project.save_to_json env fs p.project_metadata_file project_metadata with
  | ((false, message), fs1) => ((false, message), fs1)
  | ((true, message), fs1) => ((true, message), fs1)

/-- Translation of Project.ensure_subfolders (lines 99-108): iterate over the
two subfolders in dict insertion order (cache first, then capture), creating
each with os.makedirs(..., exist_ok=True); the first failure aborts. -/
def Project.ensure_subfolders (env : Env) (fs : FS) (p : Project) :
    (Bool × Option Msg) × FS :=
  match makedirs env fs p.cache_subfolder with
  | .error e =>
    ((false, some ("Error", "Error al crear " ++ p.cache_subfolder ++ ": " ++ e)), fs)
  | .ok fs1 =>
    match makedirs env fs1 p.capture_subfolder with
    | .error e =>
      ((false, some ("Error", "Error al crear " ++ p.capture_subfolder ++ ": " ++ e)), fs1)
    | .ok fs2 => ((true, none), fs2)

/-- The configuration dict built by ProjectManager.load_config (lines 116-126)
from the settings dict: the two folder entries actually read by the manager. -/
structure Config where
  base_projects_folder : String
  copista_folder : String

/-- In-memory state of ProjectManager (lines 110-114). -/
structure ProjectManager where
  config : Config
  current_project : Option Project

/-- ProjectManager.__init__ plus load_config: the config is a copy of the two
settings entries, and no project is open yet. -/
def ProjectManager.init (settings : Config) : ProjectManager :=
  { config := settings, current_project := none }

/-- The value create_project returns to its caller: either the bare False of
line 134 (empty or missing title) or a (flag, message) tuple as returned by
every other path. -/
inductive CreateRet where
  | bare (b : Bool)
  | tuple (ok : Bool) (message : Option Msg)

/-- Whether the returned value signals failure. -/
def CreateRet.isFailure : CreateRet → Bool
  | .bare b => !b
  | .tuple ok _ => !ok

/-- Python format f-string piece for a counter rendered with the 03d format
specifier: the decimal digits, zero-padded on the left to width three. -/
def pad3 (n : Nat) : String :=
  let s := toString n
  if s.length < 3 then String.mk (List.replicate (3 - s.length) '0') ++ s else s

/-- Splits a character stream into its maximal alphanumeric runs; the
accumulator holds the current run reversed. -/
def slug_words : List Char → List Char → List (List Char)
  | [], acc => if acc.isEmpty then [] else [acc.reverse]
  | c :: cs, acc =>
    if c.isAlpha || c.isDigit then slug_words cs (c :: acc)
    else if acc.isEmpty then slug_words cs [] else acc.reverse :: slug_words cs []

/-- Modelled from the spec: the slugify function used by create_project comes
from the third-party python-slugify package, which is not part of this
repository.  The spec describes it as a deterministic identifier-slugification
function mapping arbitrary title text to a filesystem-safe lowercase token,
with slugify of the title My Test Project equal to my-test-project.  Modelled
here for ASCII titles: lowercase the text and join its maximal alphanumeric
runs with single hyphens. -/
def slugify (s : String) : String :=
  String.intercalate "-" ((slug_words (s.data.map Char.toLower) []).map String.mk)

/-- The while loop of create_project (lines 140-144): starting from the plain
slug directory, append the zero-padded sequential counter suffix and retry as
long as the candidate exists.  The loop is unbounded in the source; the fuel
argument bounds the number of iterations modelled, and none is returned only
when the fuel runs out before a free name is found. -/
def probe_directory (fs : FS) (parent slug : String) :
    Nat → String → Nat → Option String
  | 0, _, _ => none
  | fuel + 1, new_directory, counter =>
    if fs.path_exists new_directory then
      probe_directory fs parent slug fuel
        (pathJoin parent (slug ++ "_" ++ pad3 counter)) (counter + 1)
    else
      some new_directory

/-- The parent local of create_project (line 136): parent_directory when it
is a truthy string, otherwise the configured base projects folder. -/
def resolve_parent (mgr : ProjectManager) (parent_directory : Option String) :
    String :=
  match parent_directory with
  | some d => if d = "" then mgr.config.base_projects_folder else d
  | none => mgr.config.base_projects_folder

/-- Lines 146-166 of create_project, after the target directory has been
chosen: construct the Project, set its title, create the directory, the two
subfolders, and write the two initial JSON files; the first failing step
aborts with its message and the manager is updated only after every step has
succeeded. -/
def ProjectManager.create_project_steps (env : Env) (mgr : ProjectManager)
    (fs : FS) (new_directory : String) (title : String) :
    CreateRet × ProjectManager × FS :=
  let base_project := Project.init new_directory
  let new_project :=
    { base_project with
      project_metadata := base_project.project_metadata.setKey "title" (.str title) }
  match makedirs env fs new_directory with
  | .error e =>
    (.tuple false (some ("Error", "Error al crear " ++ new_directory ++ ": " ++ e)),
      mgr, fs)
  | .ok fs1 =>
    match Project.ensure_subfolders env fs1 new_project with
    | ((false, message), fs2) => (.tuple false message, mgr, fs2)
    | ((true, _), fs2) =>
      match Project.save_bundles env fs2 new_project with
      | ((false, message), fs3) => (.tuple false message, mgr, fs3)
      | ((true, _), fs3) =>
        match Project.save_project_metadata env fs3 new_project with
        | ((false, message), fs4) => (.tuple false message, mgr, fs4)
        | ((true, _), fs4) =>
          (.tuple true none, { mgr with current_project := some new_project }, fs4)

/-- Translation of ProjectManager.create_project (lines 132-166).  Returns the
Python return value together with the resulting manager and filesystem states;
the outer none is the model artifact of the probe fuel running out. -/
def ProjectManager.create_project (env : Env) (fuel : Nat)
    (mgr : ProjectManager) (fs : FS) (title : Option String)
    (parent_directory : Option String) :
    Option (CreateRet × ProjectManager × FS) :=
  match title with
  | none => some (.bare false, mgr, fs)
  | some t =>
    if t = "" then some (.bare false, mgr, fs)
    else
      match probe_directory fs (resolve_parent mgr parent_directory) (slugify t)
          fuel (pathJoin (resolve_parent mgr parent_directory) (slugify t)) 1 with
      | none => none
      | some new_directory =>
        some (ProjectManager.create_project_steps env mgr fs new_directory t)

/-- Outcome of a Python call that can either return a value or let an
exception propagate to the caller. -/
inductive PyOutcome where
  | raised (exc : String)
  | returned (ok : Bool) (message : Option Msg)

/-- Translation of ProjectManager.load_project (lines 168-185).  When the
directory does not exist, line 170 evaluates an f-string that reads
project.directory, but the local variable project is only assigned at line
173, so Python raises UnboundLocalError instead of returning the failure
tuple.  On the subfolder-creation failure path the source returns message -
the (by then None) variable left over from load_bundles - rather than
message_update. -/
def ProjectManager.load_project (env : Env) (mgr : ProjectManager) (fs : FS)
    (directory : String) : PyOutcome × ProjectManager × FS :=
  if fs.path_exists directory = false then
    (.raised "UnboundLocalError: local variable project referenced before assignment",
      mgr, fs)
  else
    let project := Project.init directory
    match Project.load_bundles env fs project with
    | (false, message, _) => (.returned false message, mgr, fs)
    | (true, message, project1) =>
      match Project.ensure_subfolders env fs project1 with
      | ((false, _), fs1) => (.returned false message, mgr, fs1)
      | ((true, _), fs1) =>
        match Project.load_project_metadata env fs1 project1 with
        | (false, message2, _) => (.returned false message2, mgr, fs1)
        | (true, message2, project2) =>
          (.returned true message2,
            { mgr with current_project := some project2 }, fs1)

/-- Python list.insert(i, x): a negative index counts from the end and is
clamped to the front, an index past the end appends. -/
def pyListInsert (xs : List JVal) (i : Int) (x : JVal) : List JVal :=
  let n : Int := xs.length
  let j : Int := if i < 0 then max (n + i) 0 else i
  let k : Nat := (min j n).toNat
  xs.take k ++ x :: xs.drop k

/-- Python list.pop(i): remove and return the element at index i (negative
indices count from the end); none models the IndexError raised when the index
is out of range. -/
def pyListPop (xs : List JVal) (i : Int) : Option (JVal × List JVal) :=
  let n : Int := xs.length
  let j : Int := if i < 0 then n + i else i
  if 0 ≤ j ∧ j < n then
    match xs.get? j.toNat with
    | some x => some (x, xs.take j.toNat ++ xs.drop (j.toNat + 1))
    | none => none
  else none

/-- The in-memory bundle-list manipulation performed by add_bundle_from_images
(digitization_dialog.py lines 396-412): insert the new bundle right after the
current one; if the subsequent save_bundles reports failure, revert with
list.pop at the same index.  save_ok is the success flag returned by
save_bundles; when the pop itself raises IndexError the surrounding except
handler swallows it and the list keeps the inserted element. -/
def add_bundle_from_images_bundles (bundles : List JVal)
    (current_bundle_index : Int) (new_bundle : JVal) (save_ok : Bool) :
    List JVal :=
  let insert_position := current_bundle_index + 1
  let inserted := pyListInsert bundles insert_position new_bundle
  if save_ok then inserted
  else
    match pyListPop inserted insert_position with
    | some (_, reverted) => reverted
    | none => inserted

/-! Helper lemmas about the filesystem model. -/

theorem FS.files_addDir (fs : FS) (p : String) : (fs.addDir p).files = fs.files := by
  unfold FS.addDir
  split <;> rfl

theorem FS.dirs_setFile (fs : FS) (p : String) (c : FileContent) :
    (fs.setFile p c).dirs = fs.dirs := rfl

theorem FS.isFile_addDir (fs : FS) (p q : String) :
    (fs.addDir q).isFile p = fs.isFile p := by
  unfold FS.isFile
  rw [FS.files_addDir]

theorem FS.contains_addDir_self (fs : FS) (p : String) :
    (fs.addDir p).dirs.contains p = true := by
  unfold FS.addDir
  split
  · assumption
  · simp [List.contains_cons]

theorem FS.contains_addDir_mono (fs : FS) (p q : String)
    (h : fs.dirs.contains p = true) : (fs.addDir q).dirs.contains p = true := by
  unfold FS.addDir
  split
  · exact h
  · simp only [List.contains_cons, Bool.or_eq_true]
    exact Or.inr h

theorem FS.addDir_of_contains (fs : FS) (p : String)
    (h : fs.dirs.contains p = true) : fs.addDir p = fs := by
  unfold FS.addDir
  rw [if_pos h]

theorem FS.isFile_false_of_not_exists (fs : FS) (p : String)
    (h : fs.path_exists p = false) : fs.isFile p = false := by
  unfold FS.path_exists at h
  unfold FS.isFile
  exact (Bool.or_eq_false_iff.mp h).2

theorem FS.lookup_setFile_self (fs : FS) (p : String) (c : FileContent) :
    (fs.setFile p c).files.lookup p = some c := by
  unfold FS.setFile
  simp [List.lookup]

/-! Theorems settling the claims. -/

/-- C1 (code bug): for every directory that does not exist on the filesystem,
ProjectManager.load_project does not return the intended failure tuple: line
170 reads project.directory before the local variable project is assigned, so
the call raises UnboundLocalError instead of returning a (category, detail)
failure pair, leaving the manager and the filesystem untouched. -/
theorem load_project_missing_directory_raises
    (env : Env) (mgr : ProjectManager) (fs : FS) (d : String)
    (h : fs.path_exists d = false) :
    ProjectManager.load_project env mgr fs d =
      (.raised "UnboundLocalError: local variable project referenced before assignment",
        mgr, fs) := by
  unfold ProjectManager.load_project
  rw [if_pos h]

/-- Witness for C1: loading the missing directory ghost from the empty
filesystem raises instead of returning. -/
theorem load_project_missing_directory_raises_witness :
    ProjectManager.load_project Env.ok (ProjectManager.init ⟨"base", "cop"⟩) ⟨[], []⟩
        "ghost" =
      (.raised "UnboundLocalError: local variable project referenced before assignment",
        ProjectManager.init ⟨"base", "cop"⟩, (⟨[], []⟩ : FS)) :=
  load_project_missing_directory_raises Env.ok (ProjectManager.init ⟨"base", "cop"⟩)
    ⟨[], []⟩ "ghost" rfl

/-- C3 (code bug): create_project with an empty title returns the bare Python
value False - not a (flag, (category, detail)) pair - while leaving the
manager and the filesystem untouched (no directory is created).  The bare
False is a different value from every (flag, message) tuple, so callers such
as digitization_dialog.py line 208, which unpack two values, would raise. -/
theorem create_project_empty_title_returns_bare_false
    (env : Env) (fuel : Nat) (mgr : ProjectManager) (fs : FS)
    (parent_directory : Option String) :
    ProjectManager.create_project env fuel mgr fs (some "") parent_directory =
      some (.bare false, mgr, fs) ∧
    (∀ ok message, CreateRet.bare false ≠ CreateRet.tuple ok message) := by
  constructor
  · rfl
  · intro ok message hcontra
    cases hcontra

/-- The filesystem of the C2 counterexample: the project directory proj with a
bundles.json holding the JSON object with no keys at all. -/
def c2_fs : FS := ⟨[(pathJoin "proj" "bundles.json", .json (.obj []))], ["proj"]⟩

/-- C2 counterexample: on a bundles.json whose JSON object lacks the bundles
key, load_bundles succeeds and sets the in-memory bundle list to the empty
sequence, but its returned message is none - not the non-None Warning pair the
claim states. -/
theorem load_bundles_empty_key_counterexample :
    Project.load_bundles Env.ok c2_fs (Project.init "proj") =
      (true, none, { Project.init "proj" with bundles := .arr [] }) := rfl

/-- C2 (amended): when bundles.json parses as a JSON object in which the
bundles key is absent or maps to an empty array, load_bundles succeeds with
the in-memory bundle list set to the empty sequence but returns none as its
message; the Warning pair is produced one level down by load_from_json and is
discarded by load_bundles. -/
theorem load_bundles_empty_key_succeeds
    (env : Env) (fs : FS) (p : Project) (fields : List (String × JVal))
    (hfile : fs.files.lookup p.bundles_file = some (.json (.obj fields)))
    (hread : env.read_fails p.bundles_file = none)
    (hitem : (JVal.obj fields).getD "bundles" (.arr []) = .arr []) :
    Project.load_bundles env fs p = (true, none, { p with bundles := .arr [] }) ∧
    Project.load_from_json env fs p.bundles_file "bundles" =
      .success (some msg_empty_item_warning) (.arr []) := by
  have hlj : Project.load_from_json env fs p.bundles_file "bundles" =
      .success (some msg_empty_item_warning) (.arr []) := by
    unfold Project.load_from_json
    rw [hfile, hread]
    simp [hitem, JVal.falsy]
  refine ⟨?_, hlj⟩
  unfold Project.load_bundles
  rw [hlj]

/-- Witness for C2 (amended): the concrete filesystem c2_fs realises the
hypotheses; load_bundles returns (True, None) with an empty bundle list while
load_from_json carries the warning. -/
theorem load_bundles_empty_key_succeeds_witness :
    Project.load_bundles Env.ok c2_fs (Project.init "proj") =
      (true, none, { Project.init "proj" with bundles := .arr [] }) ∧
    Project.load_from_json Env.ok c2_fs (Project.init "proj").bundles_file "bundles" =
      .success (some msg_empty_item_warning) (.arr []) :=
  load_bundles_empty_key_succeeds Env.ok c2_fs (Project.init "proj") [] rfl rfl rfl

/-- C4: load_bundles fails with the NotFound message when bundles.json is
absent, with the ParseError message when bundles.json holds malformed JSON
(with no environmental read failure, as in the source, where the open call
succeeds before json.load raises), and every failure leaves the in-memory
bundle list - indeed the whole project value - unchanged. -/
theorem load_bundles_failure_conditions
    (env : Env) (fs : FS) (p : Project) :
    (fs.files.lookup p.bundles_file = none →
      Project.load_bundles env fs p =
        (false, some (msg_not_found p.bundles_file), p)) ∧
    (fs.files.lookup p.bundles_file = some .malformed →
      env.read_fails p.bundles_file = none →
      Project.load_bundles env fs p = (false, some msg_parse_error, p)) ∧
    (∀ message q, Project.load_bundles env fs p = (false, message, q) → q = p) := by
  refine ⟨?_, ?_, ?_⟩
  · intro h
    unfold Project.load_bundles Project.load_from_json
    rw [h]
  · intro h hr
    unfold Project.load_bundles Project.load_from_json
    rw [h, hr]
  · intro message q h
    unfold Project.load_bundles at h
    cases hl : Project.load_from_json env fs p.bundles_file "bundles" with
    | failure m =>
      rw [hl] at h
      simp only [Prod.mk.injEq] at h
      exact h.2.2.symm
    | success m item =>
      rw [hl] at h
      simp at h

/-- Witness for C4: on the empty filesystem the absent bundles.json yields the
NotFound message, and a malformed bundles.json yields the ParseError message,
each leaving the project untouched. -/
theorem load_bundles_failure_conditions_witness :
    Project.load_bundles Env.ok ⟨[], []⟩ (Project.init "proj") =
      (false, some (msg_not_found (Project.init "proj").bundles_file),
        Project.init "proj") ∧
    msg_not_found (Project.init "proj").bundles_file =
      ("Error", "No existe bundles.json en el proyecto") ∧
    Project.load_bundles Env.ok
        ⟨[(pathJoin "proj" "bundles.json", .malformed)], []⟩ (Project.init "proj") =
      (false, some ("Error", "Error al leer {filename}"), Project.init "proj") := by
  refine ⟨?_, rfl, ?_⟩
  · exact (load_bundles_failure_conditions Env.ok ⟨[], []⟩ (Project.init "proj")).1 rfl
  · exact (load_bundles_failure_conditions Env.ok
      ⟨[(pathJoin "proj" "bundles.json", .malformed)], []⟩ (Project.init "proj")).2.1
      rfl rfl

/-- C6: when the write (and subsequent read) of bundles.json succeed,
save_bundles returns (True, None) and a following load_bundles on the same
project - even if its in-memory bundle attribute has been replaced by any
other value in between - restores exactly the saved bundle sequence. -/
theorem save_load_bundles_round_trip
    (env : Env) (fs : FS) (p : Project)
    (hw : env.write_fails p.bundles_file = none)
    (hr : env.read_fails p.bundles_file = none) :
    (Project.save_bundles env fs p).1 = (true, none) ∧
    (∀ other : JVal,
      Project.load_bundles env (Project.save_bundles env fs p).2
        { p with bundles := other } = (true, none, p)) := by
  have hsave : Project.save_bundles env fs p =
      ((true, none),
        fs.setFile p.bundles_file (.json (.obj [("bundles", p.bundles)]))) := by
    unfold Project.save_bundles Project.save_to_json
    rw [hw]
  refine ⟨by rw [hsave], ?_⟩
  intro other
  rw [hsave]
  unfold Project.load_bundles Project.load_from_json
  have hpath : Project.bundles_file { p with bundles := other } = p.bundles_file := rfl
  rw [hpath, FS.lookup_setFile_self, hr]
  simp [JVal.getD, List.lookup]

/-- Witness for C6: a concrete project with one generic bundle survives the
save/load round trip on the empty filesystem. -/
theorem save_load_bundles_round_trip_witness :
    Project.load_bundles Env.ok
        (Project.save_bundles Env.ok ⟨[], []⟩
          { Project.init "proj" with
            bundles := .arr [.obj [("type", .str "generic"),
              ("images", .arr [.str "a.jpg"])]] }).2
        { { Project.init "proj" with
            bundles := .arr [.obj [("type", .str "generic"),
              ("images", .arr [.str "a.jpg"])]] } with bundles := .null } =
      (true, none,
        { Project.init "proj" with
          bundles := .arr [.obj [("type", .str "generic"),
            ("images", .arr [.str "a.jpg"])]] }) :=
  (save_load_bundles_round_trip Env.ok ⟨[], []⟩
    { Project.init "proj" with
      bundles := .arr [.obj [("type", .str "generic"),
        ("images", .arr [.str "a.jpg"])]] } rfl rfl).2 .null

/-- C9: when the environment lets both directory creations succeed and neither
subfolder path is occupied by a regular file, ensure_subfolders succeeds, and
calling it again on the resulting filesystem succeeds with no error and
returns that filesystem unchanged: no side effect beyond the first call. -/
theorem ensure_subfolders_idempotent
    (env : Env) (fs : FS) (p : Project)
    (h1 : env.makedirs_fails p.cache_subfolder = none)
    (h2 : env.makedirs_fails p.capture_subfolder = none)
    (hf1 : fs.isFile p.cache_subfolder = false)
    (hf2 : fs.isFile p.capture_subfolder = false) :
    Project.ensure_subfolders env fs p =
      ((true, none), (fs.addDir p.cache_subfolder).addDir p.capture_subfolder) ∧
    Project.ensure_subfolders env
        ((fs.addDir p.cache_subfolder).addDir p.capture_subfolder) p =
      ((true, none), (fs.addDir p.cache_subfolder).addDir p.capture_subfolder) := by
  have hfst : Project.ensure_subfolders env fs p =
      ((true, none), (fs.addDir p.cache_subfolder).addDir p.capture_subfolder) := by
    simp [Project.ensure_subfolders, makedirs, h1, h2, hf1, hf2, FS.isFile_addDir]
  refine ⟨hfst, ?_⟩
  have hc1 : ((fs.addDir p.cache_subfolder).addDir p.capture_subfolder).dirs.contains
      p.cache_subfolder = true :=
    FS.contains_addDir_mono _ _ _ (FS.contains_addDir_self fs p.cache_subfolder)
  have hc2 : ((fs.addDir p.cache_subfolder).addDir p.capture_subfolder).dirs.contains
      p.capture_subfolder = true :=
    FS.contains_addDir_self _ p.capture_subfolder
  simp [Project.ensure_subfolders, makedirs, h1, h2, hf1, hf2, FS.isFile_addDir,
    FS.addDir_of_contains _ _ hc1, FS.addDir_of_contains _ _ hc2]

/-- Witness for C9: on the empty filesystem both calls succeed and the second
call returns the first call's filesystem unchanged. -/
theorem ensure_subfolders_idempotent_witness :
    Project.ensure_subfolders Env.ok
        ((FS.addDir ⟨[], []⟩ (Project.init "proj").cache_subfolder).addDir
          (Project.init "proj").capture_subfolder) (Project.init "proj") =
      ((true, none),
        (FS.addDir ⟨[], []⟩ (Project.init "proj").cache_subfolder).addDir
          (Project.init "proj").capture_subfolder) :=
  (ensure_subfolders_idempotent Env.ok ⟨[], []⟩ (Project.init "proj")
    rfl rfl rfl rfl).2

/-- Removing at the insertion index undoes a Python list insert, provided the
index lies within the pre-insert list bounds. -/
theorem pyListPop_pyListInsert (xs : List JVal) (x : JVal) (i : Int)
    (h0 : 0 ≤ i) (h1 : i ≤ (xs.length : Int)) :
    pyListPop (pyListInsert xs i x) i = some (x, xs) := by
  have hnneg : ¬ i < 0 := by omega
  have hmin : min i (xs.length : Int) = i := min_eq_left h1
  simp only [pyListInsert, pyListPop, if_neg hnneg, hmin]
  set k : Nat := i.toNat with hk
  have hklen : k ≤ xs.length := by omega
  have htk : (xs.take k).length = k := by
    simp [List.length_take]
    omega
  have hlen : (xs.take k ++ x :: xs.drop k).length = xs.length + 1 := by
    simp only [List.length_append, htk, List.length_cons, List.length_drop]
    omega
  rw [if_pos (by rw [hlen]; constructor <;> omega)]
  have hget : (xs.take k ++ x :: xs.drop k).get? k = some x := by
    rw [List.get?_append_right htk.le]
    simp [htk]
  rw [hget]
  have htake : (xs.take k ++ x :: xs.drop k).take k = xs.take k :=
    List.take_left' htk
  have hdrop : (xs.take k ++ x :: xs.drop k).drop (k + 1) = xs.drop k := by
    have hassoc : xs.take k ++ x :: xs.drop k = (xs.take k ++ [x]) ++ xs.drop k := by
      simp
    rw [hassoc]
    exact List.drop_left' (by simp [htk])
  rw [htake, hdrop, List.take_append_drop]

/-- C5 counterexample: in the state the dialog reaches after loading a project
with an empty bundle list (load_project_and_update_dialog sets
current_bundle_index to 0 unconditionally), the insertion position is 1;
Python's list.insert clamps it and appends, but on save failure list.pop(1)
raises IndexError, which the surrounding except handler swallows, so the
inserted bundle stays: the in-memory list is NOT restored to its pre-insert
value (the empty list). -/
theorem add_bundle_rollback_counterexample :
    add_bundle_from_images_bundles [] 0 (.str "c") false = [JVal.str "c"] ∧
    [JVal.str "c"] ≠ ([] : List JVal) :=
  ⟨rfl, by simp⟩

/-- C5 (amended): when the insertion index current_bundle_index + 1 lies
within the bounds of the pre-insert bundle list and the subsequent
save_bundles reports failure, the rollback pop restores the in-memory bundle
list to exactly its value before the insert.  (When the index exceeds the
list length - reachable with an empty bundle list and index 0 - the pop
raises IndexError, the handler swallows it, and the insert is not undone.) -/
theorem add_bundle_rollback
    (bundles : List JVal) (current_bundle_index : Int) (new_bundle : JVal)
    (h0 : 0 ≤ current_bundle_index + 1)
    (h1 : current_bundle_index + 1 ≤ (bundles.length : Int)) :
    add_bundle_from_images_bundles bundles current_bundle_index new_bundle false =
      bundles := by
  unfold add_bundle_from_images_bundles
  simp only [if_neg Bool.false_ne_true]
  rw [pyListPop_pyListInsert bundles new_bundle (current_bundle_index + 1) h0 h1]

/-- Witness for C5 (amended): inserting after position 0 of a two-element
bundle list and failing the save leaves the original list. -/
theorem add_bundle_rollback_witness :
    add_bundle_from_images_bundles [.str "a", .str "b"] 0 (.str "c") false =
      [JVal.str "a", JVal.str "b"] :=
  add_bundle_rollback [.str "a", .str "b"] 0 (.str "c") (by omega) (by simp)

/-! Helper lemmas about the directory-name probe and create_project. -/

theorem FS.path_exists_of_contains (fs : FS) (p : String)
    (h : fs.dirs.contains p = true) : fs.path_exists p = true := by
  unfold FS.path_exists
  rw [h]
  rfl

theorem probe_directory_fresh (fs : FS) (parent slug : String) :
    ∀ (fuel : Nat) (d : String) (c : Nat) (e : String),
      probe_directory fs parent slug fuel d c = some e →
      fs.path_exists e = false := by
  intro fuel
  induction fuel with
  | zero =>
    intro d c e h
    simp [probe_directory] at h
  | succ n ih =>
    intro d c e h
    unfold probe_directory at h
    by_cases hd : fs.path_exists d = true
    · rw [if_pos hd] at h
      exact ih _ _ _ h
    · rw [if_neg hd] at h
      cases h
      simpa using hd

theorem probe_directory_shape (fs : FS) (parent slug : String) :
    ∀ (fuel : Nat) (d : String) (c : Nat) (e : String),
      probe_directory fs parent slug fuel d c = some e →
      e = d ∨ ∃ k, c ≤ k ∧ e = pathJoin parent (slug ++ "_" ++ pad3 k) := by
  intro fuel
  induction fuel with
  | zero =>
    intro d c e h
    simp [probe_directory] at h
  | succ n ih =>
    intro d c e h
    unfold probe_directory at h
    by_cases hd : fs.path_exists d = true
    · rw [if_pos hd] at h
      rcases ih _ _ _ h with heq | ⟨k, hk, heq⟩
      · exact Or.inr ⟨c, le_refl c, heq⟩
      · exact Or.inr ⟨k, by omega, heq⟩
    · rw [if_neg hd] at h
      cases h
      exact Or.inl rfl

/-- The in-memory Project value built by create_project for a chosen
directory and title. -/
def created_project (new_directory title : String) : Project :=
  { directory := new_directory
    project_metadata := .obj [("title", .str title), ("description", .null)]
    bundles := .arr [] }

theorem save_bundles_dirs (env : Env) (fs : FS) (p : Project) :
    ((Project.save_bundles env fs p).2).dirs = fs.dirs := by
  unfold Project.save_bundles Project.save_to_json
  cases h : env.write_fails p.bundles_file
  · rfl
  · rfl

theorem save_bundles_dirs_eq (env : Env) (fs : FS) (p : Project)
    (res : (Bool × Option Msg) × FS)
    (h : Project.save_bundles env fs p = res) : res.2.dirs = fs.dirs := by
  rw [← h]
  exact save_bundles_dirs env fs p

theorem save_project_metadata_dirs (env : Env) (fs : FS) (p : Project) :
    ((Project.save_project_metadata env fs p).2).dirs = fs.dirs := by
  unfold Project.save_project_metadata Project.save_to_json
  cases h : env.write_fails p.project_metadata_file
  · rfl
  · rfl

theorem save_project_metadata_dirs_eq (env : Env) (fs : FS) (p : Project)
    (res : (Bool × Option Msg) × FS)
    (h : Project.save_project_metadata env fs p = res) : res.2.dirs = fs.dirs := by
  rw [← h]
  exact save_project_metadata_dirs env fs p

theorem create_project_steps_failure_mgr (env : Env) (mgr : ProjectManager)
    (fs : FS) (d t : String) (r : CreateRet) (mgr1 : ProjectManager) (fs1 : FS)
    (h : ProjectManager.create_project_steps env mgr fs d t = (r, mgr1, fs1))
    (hfail : r.isFailure = true) : mgr1 = mgr := by
  unfold ProjectManager.create_project_steps at h
  simp only [] at h
  split at h
  · simp only [Prod.mk.injEq] at h
    exact h.2.1.symm
  · split at h
    · simp only [Prod.mk.injEq] at h
      exact h.2.1.symm
    · split at h
      · simp only [Prod.mk.injEq] at h
        exact h.2.1.symm
      · split at h
        · simp only [Prod.mk.injEq] at h
          exact h.2.1.symm
        · simp only [Prod.mk.injEq] at h
          rw [← h.1] at hfail
          simp [CreateRet.isFailure] at hfail

theorem create_project_steps_success (env : Env) (mgr : ProjectManager)
    (fs : FS) (d t : String) (r : CreateRet) (mgr1 : ProjectManager) (fs1 : FS)
    (h : ProjectManager.create_project_steps env mgr fs d t = (r, mgr1, fs1))
    (hr : r = .tuple true none) :
    mgr1 = { mgr with current_project := some (created_project d t) } ∧
    fs1.dirs.contains d = true := by
  subst hr
  have hmeta : (Project.init d).project_metadata.setKey "title" (.str t) =
      .obj [("title", .str t), ("description", .null)] := by
    simp [Project.init, JVal.setKey, List.lookup]
  unfold ProjectManager.create_project_steps at h
  simp only [] at h
  split at h
  · simp at h
  · rename_i fsa heqm
    have hfsa : fsa.dirs.contains d = true := by
      unfold makedirs at heqm
      split at heqm
      · cases heqm
      · split at heqm
        · cases heqm
        · cases heqm
          exact FS.contains_addDir_self fs d
    split at h
    · simp at h
    · rename_i message fsb heqe
      have hfsb : fsb.dirs.contains d = true := by
        unfold Project.ensure_subfolders at heqe
        split at heqe
        · cases heqe
        · rename_i fsc heqm1
          split at heqe
          · cases heqe
          · rename_i fsd heqm2
            cases heqe
            have hfsc : fsc.dirs.contains d = true := by
              unfold makedirs at heqm1
              split at heqm1
              · cases heqm1
              · split at heqm1
                · cases heqm1
                · cases heqm1
                  exact FS.contains_addDir_mono _ _ _ hfsa
            unfold makedirs at heqm2
            split at heqm2
            · cases heqm2
            · split at heqm2
              · cases heqm2
              · cases heqm2
                exact FS.contains_addDir_mono _ _ _ hfsc
      split at h
      · simp at h
      · rename_i message2 fse heqs
        have hfse : fse.dirs.contains d = true := by
          have hd2 : fse.dirs = fsb.dirs := save_bundles_dirs_eq _ _ _ _ heqs
          rw [hd2]
          exact hfsb
        split at h
        · simp at h
        · rename_i message3 fsf heqs2
          have hfsf : fsf.dirs.contains d = true := by
            have hd3 : fsf.dirs = fse.dirs := save_project_metadata_dirs_eq _ _ _ _ heqs2
            rw [hd3]
            exact hfse
          simp only [Prod.mk.injEq] at h
          refine ⟨h.2.1.symm.trans ?_, h.2.2 ▸ hfsf⟩
          unfold created_project
          rw [← hmeta]
          rfl

theorem create_project_success_shape
    (env : Env) (fuel : Nat) (mgr : ProjectManager) (fs : FS)
    (t parent : String) (r : CreateRet) (mgr1 : ProjectManager) (fs1 : FS)
    (hT : ¬ t = "") (hP : ¬ parent = "")
    (h : ProjectManager.create_project env fuel mgr fs (some t) (some parent) =
      some (r, mgr1, fs1))
    (hr : r = .tuple true none) :
    ∃ d, probe_directory fs parent (slugify t) fuel (pathJoin parent (slugify t)) 1 =
        some d ∧
      mgr1.current_project = some (created_project d t) ∧
      fs1.dirs.contains d = true := by
  unfold ProjectManager.create_project at h
  simp only [] at h
  rw [if_neg hT] at h
  have hres : resolve_parent mgr (some parent) = parent := by
    unfold resolve_parent
    simp only []
    rw [if_neg hP]
  rw [hres] at h
  cases hpr : probe_directory fs parent (slugify t) fuel
      (pathJoin parent (slugify t)) 1 with
  | none =>
    rw [hpr] at h
    simp at h
  | some d =>
    rw [hpr] at h
    simp only [Option.some.injEq] at h
    obtain ⟨hm, hc⟩ := create_project_steps_success env mgr fs d t r mgr1 fs1 h hr
    exact ⟨d, rfl, by rw [hm], hc⟩

/-- C10: every failing execution of create_project - missing or empty title,
directory-creation failure, subfolder-creation failure, or either initial
save failing - leaves the manager's current_project reference unchanged; it
is assigned only after every creation step has succeeded. -/
theorem create_project_failure_preserves_current_project
    (env : Env) (fuel : Nat) (mgr : ProjectManager) (fs : FS)
    (title parent_directory : Option String) (r : CreateRet)
    (mgr1 : ProjectManager) (fs1 : FS)
    (h : ProjectManager.create_project env fuel mgr fs title parent_directory =
      some (r, mgr1, fs1))
    (hfail : r.isFailure = true) :
    mgr1.current_project = mgr.current_project := by
  unfold ProjectManager.create_project at h
  cases title with
  | none =>
    simp only [Option.some.injEq, Prod.mk.injEq] at h
    rw [← h.2.1]
  | some t =>
    simp only [] at h
    by_cases ht : t = ""
    · rw [if_pos ht] at h
      simp only [Option.some.injEq, Prod.mk.injEq] at h
      rw [← h.2.1]
    · rw [if_neg ht] at h
      cases hpr : probe_directory fs (resolve_parent mgr parent_directory)
          (slugify t) fuel
          (pathJoin (resolve_parent mgr parent_directory) (slugify t)) 1 with
      | none =>
        rw [hpr] at h
        simp at h
      | some d =>
        rw [hpr] at h
        simp only [Option.some.injEq] at h
        rw [create_project_steps_failure_mgr env mgr fs d t r mgr1 fs1 h hfail]

/-- The manager of the C10 witness, holding an already-open project. -/
def c10_mgr : ProjectManager := ⟨⟨"base", "cop"⟩, some (Project.init "old")⟩

/-- The environment of the C10 witness: creating the target directory fails. -/
def c10_env : Env :=
  { read_fails := fun _ => none
    write_fails := fun _ => none
    makedirs_fails := fun p => if p = "base/t" then some "disco lleno" else none }

/-- Witness for C10: a create_project run whose directory creation fails
leaves the previously open project in place. -/
theorem create_project_failure_preserves_current_project_witness :
    c10_mgr.current_project = c10_mgr.current_project :=
  create_project_failure_preserves_current_project c10_env 1 c10_mgr ⟨[], []⟩
    (some "t") none
    (.tuple false (some ("Error", "Error al crear base/t: disco lleno")))
    c10_mgr ⟨[], []⟩ rfl rfl

/-- The directory name carries the underscore-and-zero-padded-counter suffix
produced by the collision probe. -/
def has_numeric_suffix (parent slug d : String) : Prop :=
  ∃ k, 1 ≤ k ∧ d = pathJoin parent (slug ++ "_" ++ pad3 k)

/-- C7: for two successful create_project runs with the same non-empty title
and the same explicit parent directory - the second run performed on the state
left by the first - the two created project directories differ; and when the
plain slug-derived directory was free before the first run, the first run
creates exactly it and the second run's directory carries a zero-padded
numeric suffix. -/
theorem create_project_twice_distinct
    (fuel1 fuel2 : Nat) (mgr : ProjectManager) (fs : FS) (title parent : String)
    (r1 r2 : CreateRet) (mgr1 mgr2 : ProjectManager) (fs1 fs2 : FS)
    (p1 p2 : Project)
    (hT : ¬ title = "") (hP : ¬ parent = "")
    (h1 : ProjectManager.create_project Env.ok fuel1 mgr fs (some title)
      (some parent) = some (r1, mgr1, fs1))
    (hr1 : r1 = .tuple true none)
    (h2 : ProjectManager.create_project Env.ok fuel2 mgr1 fs1 (some title)
      (some parent) = some (r2, mgr2, fs2))
    (hr2 : r2 = .tuple true none)
    (hp1 : mgr1.current_project = some p1)
    (hp2 : mgr2.current_project = some p2) :
    p1.directory ≠ p2.directory ∧
    (fs.path_exists (pathJoin parent (slugify title)) = false →
      p1.directory = pathJoin parent (slugify title) ∧
      has_numeric_suffix parent (slugify title) p2.directory) := by
  obtain ⟨d1, hpr1, hm1, hc1⟩ :=
    create_project_success_shape Env.ok fuel1 mgr fs title parent r1 mgr1 fs1
      hT hP h1 hr1
  obtain ⟨d2, hpr2, hm2, hc2⟩ :=
    create_project_success_shape Env.ok fuel2 mgr1 fs1 title parent r2 mgr2 fs2
      hT hP h2 hr2
  rw [hp1] at hm1
  rw [hp2] at hm2
  have hd1 : p1 = created_project d1 title := Option.some_inj.mp hm1
  have hd2 : p2 = created_project d2 title := Option.some_inj.mp hm2
  have hdir1 : p1.directory = d1 := by rw [hd1]; rfl
  have hdir2 : p2.directory = d2 := by rw [hd2]; rfl
  have hex1 : fs1.path_exists d1 = true := FS.path_exists_of_contains fs1 d1 hc1
  have hfresh2 : fs1.path_exists d2 = false :=
    probe_directory_fresh fs1 parent (slugify title) fuel2 _ 1 d2 hpr2
  have hne : d1 ≠ d2 := by
    intro heq
    rw [heq, hfresh2] at hex1
    cases hex1
  refine ⟨by rw [hdir1, hdir2]; exact hne, ?_⟩
  intro hfree
  have hplain : d1 = pathJoin parent (slugify title) := by
    cases fuel1 with
    | zero => simp [probe_directory] at hpr1
    | succ n =>
      unfold probe_directory at hpr1
      rw [if_neg (by rw [hfree]; exact Bool.false_ne_true)] at hpr1
      exact (Option.some_inj.mp hpr1).symm
  refine ⟨by rw [hdir1, hplain], ?_⟩
  rcases probe_directory_shape fs1 parent (slugify title) fuel2 _ 1 d2 hpr2 with
    heq | ⟨k, hk, heq⟩
  · exact absurd (hplain.trans heq.symm) hne
  · exact ⟨k, hk, by rw [hdir2, heq]⟩

/-- The manager of the C7 witness before any run. -/
def c7_mgr0 : ProjectManager := ⟨⟨"base", "cop"⟩, none⟩

/-- The metadata value created for the title t. -/
def c7_meta : JVal := .obj [("title", .str "t"), ("description", .null)]

/-- The project created by the first C7 witness run. -/
def c7_p1 : Project := ⟨"par/t", c7_meta, .arr []⟩

/-- The project created by the second C7 witness run. -/
def c7_p2 : Project := ⟨"par/t_001", c7_meta, .arr []⟩

/-- The manager after the first C7 witness run. -/
def c7_mgr1 : ProjectManager := ⟨⟨"base", "cop"⟩, some c7_p1⟩

/-- The manager after the second C7 witness run. -/
def c7_mgr2 : ProjectManager := ⟨⟨"base", "cop"⟩, some c7_p2⟩

/-- The filesystem after the first C7 witness run. -/
def c7_fs1 : FS :=
  ⟨[("par/t/project_metadata.json", .json (.obj [("project_metadata", c7_meta)])),
    ("par/t/bundles.json", .json (.obj [("bundles", .arr [])]))],
   ["par/t/.capture", "par/t/.cache", "par/t"]⟩

/-- The filesystem after the second C7 witness run. -/
def c7_fs2 : FS :=
  ⟨[("par/t_001/project_metadata.json", .json (.obj [("project_metadata", c7_meta)])),
    ("par/t_001/bundles.json", .json (.obj [("bundles", .arr [])]))] ++ c7_fs1.files,
   ["par/t_001/.capture", "par/t_001/.cache", "par/t_001"] ++ c7_fs1.dirs⟩

/-- Witness for C7: creating the project t under par twice in a row on an
initially empty filesystem yields par/t and then the distinct suffixed
par/t_001. -/
theorem create_project_twice_distinct_witness :
    c7_p1.directory ≠ c7_p2.directory ∧
    (FS.path_exists ⟨[], []⟩ (pathJoin "par" (slugify "t")) = false →
      c7_p1.directory = pathJoin "par" (slugify "t") ∧
      has_numeric_suffix "par" (slugify "t") c7_p2.directory) :=
  create_project_twice_distinct 1 2 c7_mgr0 ⟨[], []⟩ "t" "par"
    (.tuple true none) (.tuple true none) c7_mgr1 c7_mgr2 c7_fs1 c7_fs2 c7_p1 c7_p2
    (by decide) (by decide) rfl rfl rfl rfl rfl rfl

/-- The manager of the C8 scenario before the run. -/
def c8_mgr0 : ProjectManager := ProjectManager.init ⟨"base", "cop"⟩

/-- The metadata value created for the title My Test Project. -/
def c8_meta : JVal := .obj [("title", .str "My Test Project"), ("description", .null)]

/-- The project created by the C8 scenario run. -/
def c8_project : Project := ⟨pathJoin "projects" "my-test-project", c8_meta, .arr []⟩

/-- The filesystem state after the C8 scenario run. -/
def c8_fs_result : FS :=
  ⟨[("projects/my-test-project/project_metadata.json",
      .json (.obj [("project_metadata", c8_meta)])),
    ("projects/my-test-project/bundles.json", .json (.obj [("bundles", .arr [])]))],
   ["projects/my-test-project/.capture", "projects/my-test-project/.cache",
    "projects/my-test-project"]⟩

/-- C8: creating the project titled My Test Project under projects on an
empty filesystem (no colliding directory) succeeds; the created directory is
the slug my-test-project joined to the parent, project_metadata.json holds
the project_metadata object with the title and a null description, and
bundles.json holds the empty bundles list. -/
theorem create_project_scenario :
    slugify "My Test Project" = "my-test-project" ∧
    ProjectManager.create_project Env.ok 1 c8_mgr0 ⟨[], []⟩
        (some "My Test Project") (some "projects") =
      some (.tuple true none, ⟨⟨"base", "cop"⟩, some c8_project⟩, c8_fs_result) ∧
    c8_project.directory = pathJoin "projects" (slugify "My Test Project") ∧
    c8_fs_result.files.lookup (Project.project_metadata_file c8_project) =
      some (.json (.obj [("project_metadata",
        .obj [("title", .str "My Test Project"), ("description", .null)])])) ∧
    c8_fs_result.files.lookup (Project.bundles_file c8_project) =
      some (.json (.obj [("bundles", .arr [])])) ∧
    c8_fs_result.dirs.contains c8_project.directory = true :=
  ⟨rfl, rfl, rfl, rfl, rfl, rfl⟩

end Copista
